import Mathlib

/-!
# Verification of the multi-dimensional resource scheduler core

This file embeds, shallowly, the scheduling core of the repository:

* package `main` of the preemptive scheduler (the source file declaring
  `canScheduleMulti`, `scoreMultiResource`, `attemptPreemptionMulti`,
  `getNodeStats`) — namespace `PreemptiveSched`;
* package `sched_extension` of the HTTP scheduler extender
  (`CanScheduleMulti`, `ScoreMultiResource`, `parseResourceAnnotation`,
  `ExtractPodRequirements`) — namespace `SchedExtension`;
* package `multiresource` of the in-process scheduler plugin
  (`canScheduleMulti`, `extractPodRequirements`, `parseResourceAnnotation`,
  `NormalizeScore`) — namespace `MultiResource`.

Modelling conventions:

* Go `float64` values are modelled as exact rationals (`ℚ`).  All the
  arithmetic the verified properties exercise is addition, subtraction,
  multiplication, division by nonzero quantities and order comparisons,
  which the rational idealization reproduces faithfully; where a Go
  division by zero (yielding ±Inf/NaN) could matter it is noted at the
  definition site.
* Go `int` / `int64` are modelled as `ℤ`; Go integer division truncates
  toward zero, which is `Int.div`.
* The conversion `int(f)` of a `float64` to an integer truncates toward
  zero; `goTruncQ` below models it (for in-range values).
* Effects (log output, the Kubernetes client, the Prometheus endpoint)
  are made explicit: log-only failure reasons become returned values,
  remote query results become explicit environment inputs, and evictions
  become returned victim lists.
-/

/-- Go `int(f)` for `f : float64`: truncation toward zero, modelled on `ℚ`.
For a rational `q = num/den` in lowest terms with `den > 0`, truncation
toward zero is T-division (`Int.div`) of the numerator by the denominator. -/
def goTruncQ (q : ℚ) : ℤ := q.num.tdiv q.den

/-- Go `strings.Contains s sub` (occurrence of `sub` as a substring of `s`),
modelled character-wise; the strings the scheduler compares are ASCII, where
byte positions and character positions agree. -/
def goContains (s sub : String) : Bool :=
  (List.range (s.length + 1)).any (fun i => sub.isPrefixOf (s.drop i))

/-- Go `strings.Split(s, sep)[0]`: `strings.Split` always returns at least
one element, so indexing by 0 is total. -/
def goSplitHead (s sep : String) : String := ((s.splitOn sep).headD "")

namespace GoStrconv

/-!
Model of Go `strconv.ParseFloat(s, 64)` on its decimal fragment, with the
value taken exactly in `ℚ` instead of rounded to the nearest `float64`.
Covered grammar: optional sign, a mantissa made of decimal digits with an
optional decimal point (digits required on at least one side of the point),
and an optional exponent part `e`/`E` with optional sign and at least one
digit.  Not covered (irrelevant to the verified properties, which only
exercise plain decimal strings and strings that fail to parse entirely):
"Inf"/"NaN" spellings, hexadecimal mantissas, and digit-separating
underscores. -/

/-- Parse a nonempty all-digit character run into (value, digit count). -/
def parseDigits (cs : List Char) : Option (ℕ × ℕ) :=
  match cs with
  | [] => none
  | _ =>
    cs.foldl
      (fun acc c =>
        match acc with
        | some (v, n) => if c.isDigit then some (v * 10 + (c.toNat - 48), n + 1) else none
        | none => none)
      (some (0, 0))

/-- Mantissa: digits with an optional decimal point. -/
def parseMantissa (cs : List Char) : Option ℚ :=
  let intPart := cs.takeWhile (fun c => !(c == '.'))
  let rest := cs.dropWhile (fun c => !(c == '.'))
  match rest with
  | [] => (parseDigits intPart).map (fun p => (p.1 : ℚ))
  | _ :: fracPart =>
    match intPart, fracPart with
    | [], [] => none
    | [], _ =>
      (parseDigits fracPart).map (fun p => (p.1 : ℚ) / 10 ^ p.2)
    | _, [] => (parseDigits intPart).map (fun p => (p.1 : ℚ))
    | _, _ =>
      match parseDigits intPart, parseDigits fracPart with
      | some ip, some fp => some ((ip.1 : ℚ) + (fp.1 : ℚ) / 10 ^ fp.2)
      | _, _ => none

/-- Exponent part (the characters after `e`/`E`): optional sign, digits. -/
def parseExponent (cs : List Char) : Option ℤ :=
  let signed : ℤ × List Char :=
    match cs with
    | '+' :: r => (1, r)
    | '-' :: r => (-1, r)
    | _ => (1, cs)
  (parseDigits signed.2).map (fun p => signed.1 * p.1)

/-- Go `strconv.ParseFloat(s, 64)` (decimal fragment, exact value) on the
character list of the string; `none` models a parse error. -/
def parseFloatChars (cs : List Char) : Option ℚ :=
  let signed : ℚ × List Char :=
    match cs with
    | '+' :: r => (1, r)
    | '-' :: r => (-1, r)
    | _ => (1, cs)
  let mantPart := signed.2.takeWhile (fun c => !(c == 'e' || c == 'E'))
  let expRest := signed.2.dropWhile (fun c => !(c == 'e' || c == 'E'))
  match expRest with
  | [] => (parseMantissa mantPart).map (fun m => signed.1 * m)
  | _ :: ecs =>
    match parseMantissa mantPart, parseExponent ecs with
    | some m, some e => some (signed.1 * m * (10 : ℚ) ^ e)
    | _, _ => none

/-- Go `strconv.ParseFloat(s, 64)` (decimal fragment, exact value):
`none` models a parse error. -/
def goParseFloat (s : String) : Option ℚ :=
  parseFloatChars s.data

end GoStrconv

/-!
## Shared pod model

All three packages consume `*v1.Pod` values.  The fields of a pod that the
embedded code reads are: the containers (each with its declared CPU request,
memory request, and image name), the annotation map (which is `nil`-able in
Go, hence an `Option`), and the declared pod priority (`*int32`, hence an
`Option`).
-/

/-- The slice of a `v1.Container` the scheduler reads: declared CPU request
in cores, declared memory request in bytes (`0` models an absent request,
matching Go, where a missing quantity reads as the zero `Quantity`), and the
image name. -/
structure Container where
  cpuRequest : ℚ
  memRequest : ℚ
  image : String
  deriving Repr, DecidableEq

/-- The slice of a `v1.Pod` the scheduler reads. -/
structure Pod where
  containers : List Container
  annotations : Option (List (String × String))
  priority : Option ℤ
  deriving Repr, DecidableEq

namespace MultiResource

/-- `NodeStats` of package `multiresource` (plugin): per-node resource
capacity and availability in the six tracked dimensions. -/
structure NodeStats where
  CPUTotal : ℚ
  CPUFree : ℚ
  MemTotal : ℚ
  MemFree : ℚ
  DiskReadTotal : ℚ
  DiskReadFree : ℚ
  DiskWriteTotal : ℚ
  DiskWriteFree : ℚ
  NetUpTotal : ℚ
  NetUpFree : ℚ
  NetDownTotal : ℚ
  NetDownFree : ℚ
  deriving Repr, DecidableEq

/-- `PodRequest` of package `multiresource`: a pod's demand vector. -/
structure PodRequest where
  CPU : ℚ
  Mem : ℚ
  DiskRead : ℚ
  DiskWrite : ℚ
  NetUp : ℚ
  NetDown : ℚ
  Priority : ℤ
  deriving Repr, DecidableEq

/-- `parseResourceAnnotation` of package `multiresource` (the extender
package `sched_extension` contains a byte-identical copy): parse one
annotation value with unit-suffix support and a default fallback.
The Go parameter list is `(pod *v1.Pod, key string, defaultValue float64)`;
the function reads only `pod.Annotations`.  Go's byte-level slicing
`value[len(value)-1:]` / `value[:len(value)-1]` and `len(value)` coincide
with character-list slicing and length on these ASCII values; the slices
are modelled on `value.data` directly. -/
def parseResourceAnnotationVal (pod : Pod) (key : String) (defaultValue : ℚ) : ℚ :=
  match pod.annotations with
  | none => defaultValue
  | some anns =>
    match anns.lookup key with
    | none => defaultValue
    | some value =>
      let cs := value.data
      match GoStrconv.parseFloatChars cs with
      | some parsedValue => parsedValue
      | none =>
        if 1 < cs.length then
          let unit := (cs.drop (cs.length - 1)).map Char.toUpper
          let numPart := cs.take (cs.length - 1)
          match GoStrconv.parseFloatChars numPart with
          | some parsedNum =>
            if unit = ['K'] then parsedNum * 1024
            else if unit = ['M'] then parsedNum * 1024 * 1024
            else if unit = ['G'] then parsedNum * 1024 * 1024 * 1024
            else defaultValue
          | none => defaultValue
        else defaultValue

/-- `(*Plugin).extractPodRequirements` of package `multiresource`:
build a `PodRequest` from a pod.  The priority is the constant `1`; the
declared pod priority field is not read.  CPU and memory are the sums of
the nonzero declared container requests (Go guards each addition with
`!IsZero()`, which on exact values is the same as an unguarded sum, but
the guard is kept here for fidelity). -/
def extractPodRequirements (pod : Pod) : PodRequest :=
  let cpu := pod.containers.foldl
    (fun acc c => if c.cpuRequest ≠ 0 then acc + c.cpuRequest else acc) 0
  let mem := pod.containers.foldl
    (fun acc c => if c.memRequest ≠ 0 then acc + c.memRequest else acc) 0
  { CPU := cpu
    Mem := mem
    DiskRead := parseResourceAnnotationVal pod "scheduler.extender/disk-read" (cpu * 10 * 1024 * 1024)
    DiskWrite := parseResourceAnnotationVal pod "scheduler.extender/disk-write" (cpu * 5 * 1024 * 1024)
    NetUp := parseResourceAnnotationVal pod "scheduler.extender/net-up" (cpu * 5 * 1024 * 1024)
    NetDown := parseResourceAnnotationVal pod "scheduler.extender/net-down" (cpu * 10 * 1024 * 1024)
    Priority := 1 }

/-- `(*Plugin).canScheduleMulti` of package `multiresource`: six hard
capacity checks in fixed order, no zero-demand skip, no utilization
ceiling.  (The plugin's `alpha` field is not consulted here.) -/
def canScheduleMulti (podReq : PodRequest) (nodeStats : NodeStats) : Bool :=
  if podReq.CPU > nodeStats.CPUFree then false
  else if podReq.Mem > nodeStats.MemFree then false
  else if podReq.DiskRead > nodeStats.DiskReadFree then false
  else if podReq.DiskWrite > nodeStats.DiskWriteFree then false
  else if podReq.NetUp > nodeStats.NetUpFree then false
  else if podReq.NetDown > nodeStats.NetDownFree then false
  else true

/-- `(*Plugin).NormalizeScore` of package `multiresource` (file `score.go`),
on the list of per-node scores (`framework.NodeScoreList` With the node
names dropped; the code never reads them).  Go computes `highest` and
`lowest` in a single loop with two independent updates, which equals the
two folds below; the inner `highest != lowest` test inside the rescaling
loop is kept from the source even though the outer early return makes its
else-branch unreachable.  Go `int64` division truncates toward zero
(`Int.tdiv`). -/
def NormalizeScore (maxScore : ℤ) (scores : List ℤ) : List ℤ :=
  let highest := scores.foldl (fun h s => if s > h then s else h) 0
  let lowest := scores.foldl (fun l s => if s < l then s else l) maxScore
  if highest = lowest then scores
  else
    scores.map (fun s =>
      if highest ≠ lowest then ((s - lowest) * maxScore).tdiv (highest - lowest)
      else maxScore.tdiv 2)

end MultiResource

namespace SchedExtension

/-- `NodeStats` of package `sched_extension` (extender). -/
structure NodeStats where
  CPUTotal : ℚ
  CPUFree : ℚ
  MemTotal : ℚ
  MemFree : ℚ
  DiskReadTotal : ℚ
  DiskReadFree : ℚ
  DiskWriteTotal : ℚ
  DiskWriteFree : ℚ
  NetUpTotal : ℚ
  NetUpFree : ℚ
  NetDownTotal : ℚ
  NetDownFree : ℚ
  deriving Repr, DecidableEq

/-- `PodRequest` of package `sched_extension`. -/
structure PodRequest where
  CPU : ℚ
  Mem : ℚ
  DiskRead : ℚ
  DiskWrite : ℚ
  NetUp : ℚ
  NetDown : ℚ
  Priority : ℤ
  deriving Repr, DecidableEq

/-- `CanScheduleMulti` of package `sched_extension`: the "simplified
scheduling decision" — three pairs of hard free-capacity checks and
nothing else.  The `alpha` parameter is declared (as in the Go signature)
but never used in the body. -/
def CanScheduleMulti (podReq : PodRequest) (stats : NodeStats) (alpha : ℚ) : Bool :=
  if podReq.CPU > stats.CPUFree ∨ podReq.Mem > stats.MemFree then false
  else if podReq.DiskRead > stats.DiskReadFree ∨ podReq.DiskWrite > stats.DiskWriteFree then false
  else if podReq.NetUp > stats.NetUpFree ∨ podReq.NetDown > stats.NetDownFree then false
  else true

/-- `ScoreMultiResource` of package `sched_extension`: dominant-share
scoring.  The dominant share is the largest `req / free` over the
dimensions with nonzero demand (0 when there is none); the score is
`maxScore - maxScore * dominantShare`, clamped below at 0, then converted
with Go's `int(...)` truncation.  Unlike the preemptive scheduler's
`scoreMultiResource`, there is no special midpoint case for a zero
dominant share. -/
def ScoreMultiResource (podReq : PodRequest) (stats : NodeStats) (maxScore : ℤ) : ℤ :=
  let resources : List (ℚ × ℚ) :=
    [ (stats.CPUFree, podReq.CPU)
    , (stats.MemFree, podReq.Mem)
    , (stats.DiskReadFree, podReq.DiskRead)
    , (stats.DiskWriteFree, podReq.DiskWrite)
    , (stats.NetUpFree, podReq.NetUp)
    , (stats.NetDownFree, podReq.NetDown) ]
  let dominantShare := resources.foldl
    (fun acc r =>
      if r.2 = 0 then acc
      else
        let share := r.2 / r.1
        if share > acc then share else acc)
    0
  let score := (maxScore : ℚ) - (maxScore : ℚ) * dominantShare
  let score := if score < 0 then 0 else score
  goTruncQ score

end SchedExtension

namespace PreemptiveSched

/-- `NodeStats` of package `main` (preemptive scheduler). -/
structure NodeStats where
  CPUTotal : ℚ
  CPUFree : ℚ
  MemTotal : ℚ
  MemFree : ℚ
  DiskReadTotal : ℚ
  DiskReadFree : ℚ
  DiskWriteTotal : ℚ
  DiskWriteFree : ℚ
  NetUpTotal : ℚ
  NetUpFree : ℚ
  NetDownTotal : ℚ
  NetDownFree : ℚ
  deriving Repr, DecidableEq

/-- `PodRequest` of package `main`. -/
structure PodRequest where
  CPU : ℚ
  Mem : ℚ
  DiskRead : ℚ
  DiskWrite : ℚ
  NetUp : ℚ
  NetDown : ℚ
  Priority : ℤ
  deriving Repr, DecidableEq

/-- `RunningPod` of package `main`: the projection of a running pod that
preemption evaluates. -/
structure RunningPod where
  Name : String
  Namespace : String
  CPURequest : ℚ
  MemRequest : ℚ
  Priority : ℤ
  deriving Repr, DecidableEq

/-- One entry of the anonymous `resources` struct slice built inside
`canScheduleMulti`: `{free, total, req, name}`. -/
structure Res where
  free : ℚ
  total : ℚ
  req : ℚ
  name : String
  deriving Repr, DecidableEq

/-- The `resources` slice literal of `canScheduleMulti`, in source order. -/
def resourceChecks (pod : PodRequest) (stats : NodeStats) : List Res :=
  [ { free := stats.CPUFree, total := stats.CPUTotal, req := pod.CPU, name := "cpu" }
  , { free := stats.MemFree, total := stats.MemTotal, req := pod.Mem, name := "mem" }
  , { free := stats.DiskReadFree, total := stats.DiskReadTotal, req := pod.DiskRead, name := "diskRead" }
  , { free := stats.DiskWriteFree, total := stats.DiskWriteTotal, req := pod.DiskWrite, name := "diskWrite" }
  , { free := stats.NetUpFree, total := stats.NetUpTotal, req := pod.NetUp, name := "netUp" }
  , { free := stats.NetDownFree, total := stats.NetDownTotal, req := pod.NetDown, name := "netDown" } ]

/-- The loop body of `canScheduleMulti` over the `resources` slice: skip
zero-demand entries; fail on `free < req` (hard capacity) or on
`1 - (free-req)/total > alpha` (projected-utilization ceiling), in both
cases logging the entry's dimension name.  The Go function returns only
the boolean; the `Option String` component records the dimension named in
the failure log line (`log.Printf("Not enough %s: ...")` respectively
`log.Printf("%s utilization too high: ...")`).  Division is exact rational
division; the Go float division `(free-req)/total` with `total = 0` yields
±Inf/NaN instead of the rational convention `x / 0 = 0`, so statements
about the utilization branch carry a `0 ≤ total` or `0 < total` guard
where the distinction could matter. -/
def checkResources (alpha : ℚ) : List Res → Bool × Option String
  | [] => (true, none)
  | r :: rest =>
    if r.req = 0 then checkResources alpha rest
    else if r.free < r.req then (false, some r.name)
    else if 1 - ((r.free - r.req) / r.total) > alpha then (false, some r.name)
    else checkResources alpha rest

/-- `canScheduleMulti` of package `main`: admission with hard capacity
checks and the `alpha` utilization ceiling, over the six dimensions in
fixed order.  First component: the Go return value; second component: the
logged failing dimension, if any. -/
def canScheduleMulti (pod : PodRequest) (stats : NodeStats) (alpha : ℚ) : Bool × Option String :=
  checkResources alpha (resourceChecks pod stats)

/-- Does one `resources` entry fail either of `canScheduleMulti`'s two
checks (given that zero-demand entries are skipped)? -/
def failsCheck (alpha : ℚ) (r : Res) : Bool :=
  decide (r.req ≠ 0 ∧ (r.free < r.req ∨ 1 - ((r.free - r.req) / r.total) > alpha))

/-- The dimension name of the first entry, in slice order, failing a check. -/
def firstFailing (alpha : ℚ) (l : List Res) : Option String :=
  (l.find? (failsCheck alpha)).map Res.name

/-- `scoreMultiResource` of package `main`: dominant-share scoring with a
midpoint special case.  Dominant share = max of `req / free` over nonzero
demands; if it is 0 (no nonzero demand contributed) the function returns
`maxScore / 2` (Go `int` division, truncating); otherwise
`maxScore - maxScore * dominantShare`, clamped below at 0 and truncated
to `int`. -/
def scoreMultiResource (pod : PodRequest) (stats : NodeStats) (maxScore : ℤ) : ℤ :=
  let resources : List (ℚ × ℚ × String) :=
    [ (stats.CPUFree, pod.CPU, "cpu")
    , (stats.MemFree, pod.Mem, "mem")
    , (stats.DiskReadFree, pod.DiskRead, "diskRead")
    , (stats.DiskWriteFree, pod.DiskWrite, "diskWrite")
    , (stats.NetUpFree, pod.NetUp, "netUp")
    , (stats.NetDownFree, pod.NetDown, "netDown") ]
  let dominantShare := resources.foldl
    (fun acc r =>
      if r.2.1 = 0 then acc
      else
        let share := r.2.1 / r.1
        if share > acc then share else acc)
    0
  if dominantShare = 0 then maxScore.tdiv 2
  else
    let score := (maxScore : ℚ) - (maxScore : ℚ) * dominantShare
    let score := if score < 0 then 0 else score
    goTruncQ score

/-- Ascending insertion into a priority-sorted list. -/
def insertByPriority (x : RunningPod) : List RunningPod → List RunningPod
  | [] => [x]
  | y :: ys => if x.Priority < y.Priority then x :: y :: ys else y :: insertByPriority x ys

/-- The `sort.Slice(candidates, ...Priority < ...Priority)` call of
`attemptPreemptionMulti`, sorting candidates ascending by priority.
Go's `sort.Slice` is an unstable sort, so the relative order of
equal-priority candidates is unspecified there; this model fixes one
such order (the properties proved below do not depend on the order of
equal-priority victims beyond multiset membership). -/
def sortByPriorityAsc (l : List RunningPod) : List RunningPod :=
  l.foldr insertByPriority []

/-- The greedy accumulation loop of `attemptPreemptionMulti`: add each
candidate's CPU/memory request to the freed pool and to the victim list;
as soon as `CPUFree + freedCpu ≥ pod.CPU` and `MemFree + freedMem ≥
pod.Mem`, evict every accumulated victim and return true.  Evictions are
modelled as always succeeding (the Go eviction-API error branch, which
aborts with false after partial eviction, is outside the verified
properties); the returned list is the list of evicted pods in eviction
order, `[]` meaning no eviction was issued. -/
def preemptLoop (pod : PodRequest) (stats : NodeStats) :
    List RunningPod → ℚ → ℚ → List RunningPod → Bool × List RunningPod
  | [], _, _, _ => (false, [])
  | c :: rest, freedCpu, freedMem, victims =>
    let freedCpu := freedCpu + c.CPURequest
    let freedMem := freedMem + c.MemRequest
    let victims := victims ++ [c]
    if stats.CPUFree + freedCpu ≥ pod.CPU ∧ stats.MemFree + freedMem ≥ pod.Mem then
      (true, victims)
    else preemptLoop pod stats rest freedCpu freedMem victims

/-- `attemptPreemptionMulti` of package `main`, with the Kubernetes
`getRunningPods` listing made an explicit input (the Go error branch of
the listing simply returns false and is not modelled).  Candidates are
the running pods of strictly lower priority than the demand; with no
candidate the function returns false without side effects; otherwise the
sorted greedy loop runs.  Second component: the evicted pods. -/
def attemptPreemptionMulti (pod : PodRequest) (nodeStats : NodeStats)
    (runningPods : List RunningPod) : Bool × List RunningPod :=
  let candidates := runningPods.filter (fun rp => rp.Priority < pod.Priority)
  if candidates = [] then (false, [])
  else preemptLoop pod nodeStats (sortByPriorityAsc candidates) 0 0 []

end PreemptiveSched

namespace PreemptiveSched

/-- A Prometheus query result as `queryPrometheus` delivers it: `none`
models the error return; `some metrics` models the instance-label→value
map.  Go map iteration order is unspecified; the model fixes the list
order as the enumeration order, which the verified statements do not rely
on (their environments make lookups hit the deterministic exact-key
path). -/
def QueryResult := Option (List (String × ℚ))

/-- The results of the ten Prometheus queries `getNodeStats` issues, in
source order. -/
structure MetricsEnv where
  cpu : QueryResult
  mem : QueryResult
  memTotal : QueryResult
  diskReadUsage : QueryResult
  diskReadTotal : QueryResult
  diskWriteUsage : QueryResult
  diskWriteTotal : QueryResult
  netUpUsage : QueryResult
  netDownUsage : QueryResult
  netSpeed : QueryResult

/-- The per-dimension sample lookup `getNodeStats` repeats for each
query result: first the exact key `nodeName + ":9100"`; then the first
instance related to the node by substring containment (either direction,
the instance trimmed at `":"` for the second direction); finally an
arbitrary present sample (the first, in enumeration order).  `none` only
when the map is empty. -/
def lookupSample (metrics : List (String × ℚ)) (nodeName : String) : Option ℚ :=
  match metrics.lookup (nodeName ++ ":9100") with
  | some v => some v
  | none =>
    match metrics.find?
        (fun p => goContains p.1 nodeName || goContains nodeName (goSplitHead p.1 ":")) with
    | some p => some p.2
    | none => metrics.head?.map Prod.snd

/-- The reduced lookup used only for the inner `node_memory_MemTotal_bytes`
query: exact key, else the first sample, with no substring matching. -/
def lookupExactOrFirst (metrics : List (String × ℚ)) (nodeName : String) : Option ℚ :=
  match metrics.lookup (nodeName ++ ":9100") with
  | some v => some v
  | none => metrics.head?.map Prod.snd

/-- `getNodeStats` of package `main`, with the Prometheus responses made
an explicit `MetricsEnv` input.  Per dimension: on query error or on a
node with no matching sample, hard-coded defaults apply (CPU 6 total / 2
free; memory 8 GiB total / 4 GiB free; disk totals 100.0; net speed
1000.0; usages default to 0); otherwise free capacity is computed as
total minus the observed usage, with no clamping anywhere.  The CPU total
is always the constant 6.0 even when a usage sample is found.  When the
inner memory-total map is nonerror but empty, `stats.MemTotal` keeps the
Go zero value 0.  The Go function returns `(stats, nil)` on every path,
so the error component is dropped. -/
def getNodeStats (nodeName : String) (env : MetricsEnv) : NodeStats :=
  let cpuPair : ℚ × ℚ :=
    match env.cpu with
    | none => (6, 2)
    | some cpuMetrics =>
      match lookupSample cpuMetrics nodeName with
      | none => (6, 2)
      | some cpuUsage => (6, 6 - cpuUsage)
  let memPair : ℚ × ℚ :=
    match env.mem with
    | none => (8 * 1024 * 1024 * 1024, 4 * 1024 * 1024 * 1024)
    | some memMetrics =>
      match lookupSample memMetrics nodeName with
      | none => (8 * 1024 * 1024 * 1024, 4 * 1024 * 1024 * 1024)
      | some memUsed =>
        let total : ℚ :=
          match env.memTotal with
          | none => 8 * 1024 * 1024 * 1024
          | some memTotalMetrics => (lookupExactOrFirst memTotalMetrics nodeName).getD 0
        (total, total - memUsed)
  let diskReadUsage : ℚ :=
    match env.diskReadUsage with
    | none => 0
    | some m => (lookupSample m nodeName).getD 0
  let diskReadTotal : ℚ :=
    match env.diskReadTotal with
    | none => 100
    | some m => (lookupSample m nodeName).getD 0
  let diskWriteUsage : ℚ :=
    match env.diskWriteUsage with
    | none => 0
    | some m => (lookupSample m nodeName).getD 0
  let diskWriteTotal : ℚ :=
    match env.diskWriteTotal with
    | none => 100
    | some m => (lookupSample m nodeName).getD 0
  let netUpUsage : ℚ :=
    match env.netUpUsage with
    | none => 0
    | some m => (lookupSample m nodeName).getD 0
  let netDownUsage : ℚ :=
    match env.netDownUsage with
    | none => 0
    | some m => (lookupSample m nodeName).getD 0
  let netSpeed : ℚ :=
    match env.netSpeed with
    | none => 1000
    | some m => (lookupSample m nodeName).getD 0
  { CPUTotal := cpuPair.1
    CPUFree := cpuPair.2
    MemTotal := memPair.1
    MemFree := memPair.2
    DiskReadTotal := diskReadTotal
    DiskReadFree := diskReadTotal - diskReadUsage
    DiskWriteTotal := diskWriteTotal
    DiskWriteFree := diskWriteTotal - diskWriteUsage
    NetUpTotal := netSpeed
    NetUpFree := netSpeed - netUpUsage
    NetDownTotal := netSpeed
    NetDownFree := netSpeed - netDownUsage }

end PreemptiveSched

/-!
## Concrete inputs used by the claim theorems
-/

namespace Inputs

/-- A demand with cpu 1 core and mem 2 (and zero I/O demand). -/
def podC1 : PreemptiveSched.PodRequest :=
  { CPU := 1, Mem := 2, DiskRead := 0, DiskWrite := 0, NetUp := 0, NetDown := 0, Priority := 0 }

/-- A node whose cpu hard check passes for `podC1` but whose projected cpu
utilization `1 - (2-1)/100 = 0.99` exceeds a ceiling of `1/2`, and whose
free memory 1 is below the memory demand 2. -/
def statsC1 : PreemptiveSched.NodeStats :=
  { CPUTotal := 100, CPUFree := 2, MemTotal := 8, MemFree := 1,
    DiskReadTotal := 1, DiskReadFree := 1, DiskWriteTotal := 1, DiskWriteFree := 1,
    NetUpTotal := 1, NetUpFree := 1, NetDownTotal := 1, NetDownFree := 1 }

/-- The spec's preemption scenario: demand of 1 CPU / 1 GiB at priority 10. -/
def podC2 : PreemptiveSched.PodRequest :=
  { CPU := 1, Mem := 1024 * 1024 * 1024, DiskRead := 0, DiskWrite := 0,
    NetUp := 0, NetDown := 0, Priority := 10 }

/-- The spec's preemption scenario node: 0.5 CPU free, 512 MiB free. -/
def statsC2 : PreemptiveSched.NodeStats :=
  { CPUTotal := 4, CPUFree := 1/2, MemTotal := 4 * 1024 * 1024 * 1024,
    MemFree := 512 * 1024 * 1024,
    DiskReadTotal := 0, DiskReadFree := 0, DiskWriteTotal := 0, DiskWriteFree := 0,
    NetUpTotal := 0, NetUpFree := 0, NetDownTotal := 0, NetDownFree := 0 }

/-- First low-priority running workload: 0.5 CPU / 500 MiB, priority 1. -/
def lowPod1 : PreemptiveSched.RunningPod :=
  { Name := "low-pod-1", Namespace := "default", CPURequest := 1/2,
    MemRequest := 500 * 1024 * 1024, Priority := 1 }

/-- Second low-priority running workload: 0.5 CPU / 500 MiB, priority 1. -/
def lowPod2 : PreemptiveSched.RunningPod :=
  { Name := "low-pod-2", Namespace := "default", CPURequest := 1/2,
    MemRequest := 500 * 1024 * 1024, Priority := 1 }

/-- A running workload whose priority 10 is not lower than `podC2`'s. -/
def highPod : PreemptiveSched.RunningPod :=
  { Name := "high-pod", Namespace := "default", CPURequest := 1/2,
    MemRequest := 500 * 1024 * 1024, Priority := 10 }

/-- A metrics environment for `getNodeStats`: the CPU usage query matches
node `node1` exactly with usage 7 (e.g. seven busy cores on a large node);
every other query errors out.  All values are plausible Prometheus
samples. -/
def envC3 : PreemptiveSched.MetricsEnv :=
  { cpu := some [("node1:9100", 7)], mem := none, memTotal := none,
    diskReadUsage := none, diskReadTotal := none, diskWriteUsage := none,
    diskWriteTotal := none, netUpUsage := none, netDownUsage := none,
    netSpeed := none }

/-- A metrics environment identical to `envC3` except for an arbitrary
CPU usage sample `u` for node `name`. -/
def envWithCpuUsage (name : String) (u : ℚ) : PreemptiveSched.MetricsEnv :=
  { cpu := some [(name ++ ":9100", u)], mem := none, memTotal := none,
    diskReadUsage := none, diskReadTotal := none, diskWriteUsage := none,
    diskWriteTotal := none, netUpUsage := none, netDownUsage := none,
    netSpeed := none }

/-- A pod whose single annotation binds the disk-read key to `v`. -/
def podAnn (v : String) : Pod :=
  { containers := [], annotations := some [("scheduler.extender/disk-read", v)],
    priority := none }

/-- A demand vector for the extender with all six dimensions zero. -/
def zeroReqExt (prio : ℤ) : SchedExtension.PodRequest :=
  { CPU := 0, Mem := 0, DiskRead := 0, DiskWrite := 0, NetUp := 0, NetDown := 0, Priority := prio }

/-- A demand vector for the preemptive scheduler with all six dimensions zero. -/
def zeroReqPre (prio : ℤ) : PreemptiveSched.PodRequest :=
  { CPU := 0, Mem := 0, DiskRead := 0, DiskWrite := 0, NetUp := 0, NetDown := 0, Priority := prio }

/-- A concrete extender node state (used by witnesses). -/
def statsExtW : SchedExtension.NodeStats :=
  { CPUTotal := 6, CPUFree := 2, MemTotal := 8, MemFree := 4,
    DiskReadTotal := 100, DiskReadFree := 50, DiskWriteTotal := 100, DiskWriteFree := 50,
    NetUpTotal := 1000, NetUpFree := 500, NetDownTotal := 1000, NetDownFree := 500 }

/-- A demand admitted by `statsC6` under ceiling 1 (cpu 1 of 2 free). -/
def podC6 : PreemptiveSched.PodRequest :=
  { CPU := 1, Mem := 0, DiskRead := 0, DiskWrite := 0, NetUp := 0, NetDown := 0, Priority := 0 }

/-- A node admitting `podC6`: cpu 2 free of 10 total. -/
def statsC6 : PreemptiveSched.NodeStats :=
  { CPUTotal := 10, CPUFree := 2, MemTotal := 8, MemFree := 4,
    DiskReadTotal := 1, DiskReadFree := 1, DiskWriteTotal := 1, DiskWriteFree := 1,
    NetUpTotal := 1, NetUpFree := 1, NetDownTotal := 1, NetDownFree := 1 }

end Inputs

namespace PreemptiveSched

/-- The relation between one `resources` entry of `canScheduleMulti` and
its variant after a single free-capacity raise: either the entry is
unchanged, or it has the same demand and the same (nonnegative) total
with its free capacity raised. -/
def ResRaised (r r2 : Res) : Prop :=
  r = r2 ∨ (r2.req = r.req ∧ r2.total = r.total ∧ 0 ≤ r.total ∧ r.free ≤ r2.free)

end PreemptiveSched

/-!
## Properties

Helper lemmas first (shared between several claim theorems), then one
theorem per claim, with its counterexample or witness where applicable.
-/

namespace PreemptiveSched

/-- The loop of `canScheduleMulti` returns the first entry, in slice
order, that fails one of the two checks — both the boolean and the logged
dimension name are determined by `List.find?` over `failsCheck`. -/
theorem checkResources_eq_find (alpha : ℚ) (l : List Res) :
    checkResources alpha l =
      match l.find? (failsCheck alpha) with
      | none => (true, none)
      | some r => (false, some r.name) := by
  induction l with
  | nil => rfl
  | cons r rest ih =>
    by_cases h0 : r.req = 0
    · have hf : ¬ (failsCheck alpha r = true) := by simp [failsCheck, h0]
      rw [List.find?_cons_of_neg _ hf]
      simpa [checkResources, h0] using ih
    · by_cases hhard : r.free < r.req
      · have hf : failsCheck alpha r = true := by simp [failsCheck, h0, hhard]
        rw [List.find?_cons_of_pos _ hf]
        simp [checkResources, h0, hhard]
      · by_cases hutil : 1 - ((r.free - r.req) / r.total) > alpha
        · have hf : failsCheck alpha r = true := by
            simp only [failsCheck, decide_eq_true_eq]
            exact ⟨h0, Or.inr hutil⟩
          rw [List.find?_cons_of_pos _ hf]
          simp [checkResources, h0, hhard, hutil]
        · have hf : ¬ (failsCheck alpha r = true) := by
            simp only [failsCheck, decide_eq_true_eq, not_and, not_or]
            intro _
            exact ⟨hhard, hutil⟩
          rw [List.find?_cons_of_neg _ hf]
          simpa [checkResources, h0, hhard, hutil] using ih

/-- Unfolding step: the admission loop accepts `r :: rest` iff `r` passes
(or is skipped) and the loop accepts `rest`. -/
theorem checkResources_cons_true (alpha : ℚ) (r : Res) (rest : List Res) :
    (checkResources alpha (r :: rest)).1 = true ↔
      failsCheck alpha r = false ∧ (checkResources alpha rest).1 = true := by
  by_cases h0 : r.req = 0
  · simp [checkResources, failsCheck, h0]
  · by_cases hhard : r.free < r.req
    · simp [checkResources, failsCheck, h0, hhard]
    · by_cases hutil : 1 - ((r.free - r.req) / r.total) > alpha
      · simp [checkResources, failsCheck, h0, hhard, hutil]
      · simp [checkResources, failsCheck, h0, hhard, hutil]

/-- Raising the free capacity of a passing entry (total nonnegative)
keeps it passing: the hard check is monotone, and the projected
utilization `1 - (free - req)/total` is antitone in `free`. -/
theorem failsCheck_false_of_raised (alpha : ℚ) {r r2 : Res}
    (hrel : ResRaised r r2) (h : failsCheck alpha r = false) :
    failsCheck alpha r2 = false := by
  rcases hrel with heq | ⟨hreq, htot, h0, hfr⟩
  · exact heq ▸ h
  · simp only [failsCheck, decide_eq_false_iff_not, not_and, not_or, not_lt] at h ⊢
    intro hne
    obtain ⟨h1, h2⟩ := h (by rw [hreq] at hne; exact hne)
    refine ⟨?_, ?_⟩
    · rw [hreq]
      exact le_trans h1 hfr
    · rw [hreq, htot]
      rcases eq_or_lt_of_le h0 with hz | hpos
      · rw [← hz] at h2 ⊢
        simpa using h2
      · have hdiv : (r.free - r.req) / r.total ≤ (r2.free - r.req) / r.total :=
          (div_le_div_right hpos).mpr (by linarith)
        linarith

/-- Entrywise raising of free capacities preserves acceptance of the
whole admission loop. -/
theorem checkResources_true_mono (alpha : ℚ) {l l2 : List Res}
    (hrel : List.Forall₂ ResRaised l l2)
    (h : (checkResources alpha l).1 = true) :
    (checkResources alpha l2).1 = true := by
  induction hrel with
  | nil => exact h
  | cons hr hrest ih =>
    rw [checkResources_cons_true] at h ⊢
    exact ⟨failsCheck_false_of_raised alpha hr h.1, ih h.2⟩

end PreemptiveSched

set_option maxHeartbeats 1000000 in
/-- Claim C1 (corrected): against the claim, the dimension reported when
some dimension of the demand exceeds its free capacity need not be that
dimension.  At `podC1` (cpu 1, mem 2) and `statsC1` (cpuFree 2, memFree 1,
cpuTotal 100) with ceiling `alpha = 1/2`, the memory demand exceeds free
memory, yet `canScheduleMulti` returns false naming "cpu" — the cpu
dimension failed its projected-utilization check first, even though the
cpu demand does not exceed free cpu. -/
theorem C1_counterexample :
    PreemptiveSched.canScheduleMulti Inputs.podC1 Inputs.statsC1 (1/2) = (false, some "cpu")
    ∧ Inputs.podC1.Mem > Inputs.statsC1.MemFree
    ∧ ¬ (Inputs.podC1.CPU > Inputs.statsC1.CPUFree) := by
  refine ⟨?_, by norm_num [Inputs.podC1, Inputs.statsC1], by norm_num [Inputs.podC1, Inputs.statsC1]⟩
  simp +decide [PreemptiveSched.canScheduleMulti, PreemptiveSched.checkResources,
    PreemptiveSched.resourceChecks, Inputs.podC1, Inputs.statsC1]
  norm_num

/-- Claim C1, amended: for every demand, node state and alpha, the
admission predicate's logged failing reason is the name of the first
dimension (in the fixed order cpu, mem, diskRead, diskWrite, netUp,
netDown) failing either its hard capacity check or its utilization-ceiling
check; the predicate accepts iff no dimension fails a check; and whenever
some dimension has nonzero demand exceeding its free capacity the
predicate returns false (though the reported dimension may be an earlier
one that failed only its utilization check). -/
theorem C1_admission_reports_first_failing
    (pod : PreemptiveSched.PodRequest) (stats : PreemptiveSched.NodeStats) (alpha : ℚ) :
    ((PreemptiveSched.canScheduleMulti pod stats alpha).2
        = PreemptiveSched.firstFailing alpha (PreemptiveSched.resourceChecks pod stats))
    ∧ ((PreemptiveSched.canScheduleMulti pod stats alpha).1 = true
        ↔ PreemptiveSched.firstFailing alpha (PreemptiveSched.resourceChecks pod stats) = none)
    ∧ (∀ r ∈ PreemptiveSched.resourceChecks pod stats,
        r.req ≠ 0 → r.free < r.req →
        (PreemptiveSched.canScheduleMulti pod stats alpha).1 = false) := by
  have hc := PreemptiveSched.checkResources_eq_find alpha (PreemptiveSched.resourceChecks pod stats)
  unfold PreemptiveSched.canScheduleMulti PreemptiveSched.firstFailing
  rw [hc]
  cases hfind : (PreemptiveSched.resourceChecks pod stats).find? (PreemptiveSched.failsCheck alpha) with
  | none =>
    refine ⟨by simp, by simp, ?_⟩
    intro r hr hne hlt
    have := List.find?_eq_none.mp hfind r hr
    exact absurd (by simp [PreemptiveSched.failsCheck, hne, hlt]) this
  | some r =>
    exact ⟨by simp, by simp, fun _ _ _ _ => by simp⟩

/-- Claim C1 witness: the memory entry of `podC1`/`statsC1` has nonzero
demand 2 exceeding free capacity 1, and the amended theorem instantiated
there yields a false admission result. -/
theorem C1_witness :
    ((2:ℚ) ≠ 0 ∧ (1:ℚ) < 2) ∧
    (PreemptiveSched.canScheduleMulti Inputs.podC1 Inputs.statsC1 (1/2)).1 = false :=
  ⟨⟨by norm_num, by norm_num⟩,
    (C1_admission_reports_first_failing Inputs.podC1 Inputs.statsC1 (1/2)).2.2
      { free := 1, total := 8, req := 2, name := "mem" }
      (by simp [PreemptiveSched.resourceChecks, Inputs.statsC1, Inputs.podC1])
      (by norm_num) (by norm_num)⟩

set_option maxHeartbeats 1000000 in
/-- Claim C2 (confirmed): on a node with 0.5 CPU / 512 MiB free carrying
two priority-1 workloads of 0.5 CPU / 500 MiB each, a priority-10 demand
of 1 CPU / 1 GiB makes `attemptPreemptionMulti` return true having
evicted exactly those two workloads; and for any demand, node state and
running-pod list in which no pod has priority strictly below the
demand's, it returns false and evicts nothing. -/
theorem C2_preemption :
    ((PreemptiveSched.attemptPreemptionMulti Inputs.podC2 Inputs.statsC2
        [Inputs.lowPod1, Inputs.lowPod2]).1 = true
      ∧ (PreemptiveSched.attemptPreemptionMulti Inputs.podC2 Inputs.statsC2
          [Inputs.lowPod1, Inputs.lowPod2]).2.Perm [Inputs.lowPod1, Inputs.lowPod2])
    ∧ ∀ (pod : PreemptiveSched.PodRequest) (stats : PreemptiveSched.NodeStats)
        (runningPods : List PreemptiveSched.RunningPod),
        (∀ rp ∈ runningPods, ¬ (rp.Priority < pod.Priority)) →
        PreemptiveSched.attemptPreemptionMulti pod stats runningPods = (false, []) := by
  constructor
  · have hres : PreemptiveSched.attemptPreemptionMulti Inputs.podC2 Inputs.statsC2
        [Inputs.lowPod1, Inputs.lowPod2] = (true, [Inputs.lowPod2, Inputs.lowPod1]) := by
      simp +decide [PreemptiveSched.attemptPreemptionMulti, PreemptiveSched.sortByPriorityAsc,
        PreemptiveSched.insertByPriority, PreemptiveSched.preemptLoop,
        Inputs.podC2, Inputs.statsC2, Inputs.lowPod1, Inputs.lowPod2]
      norm_num
    rw [hres]
    exact ⟨rfl, List.Perm.swap _ _ _⟩
  · intro pod stats runningPods h
    have hfilter : runningPods.filter (fun rp => rp.Priority < pod.Priority) = [] :=
      List.filter_eq_nil_iff.mpr (by simpa using h)
    simp [PreemptiveSched.attemptPreemptionMulti, hfilter]

/-- Claim C2 witness: with a single priority-10 running pod (not lower
than the demand's priority 10), preemption returns false with no
evictions. -/
theorem C2_witness :
    (∀ rp ∈ [Inputs.highPod], ¬ (rp.Priority < Inputs.podC2.Priority))
    ∧ PreemptiveSched.attemptPreemptionMulti Inputs.podC2 Inputs.statsC2 [Inputs.highPod]
        = (false, []) := by
  have h : ∀ rp ∈ [Inputs.highPod], ¬ (rp.Priority < Inputs.podC2.Priority) := by
    simp [Inputs.highPod, Inputs.podC2]
  exact ⟨h, C2_preemption.2 Inputs.podC2 Inputs.statsC2 [Inputs.highPod] h⟩

set_option maxHeartbeats 1000000 in
/-- Claim C3 (corrected): against the claim, `getNodeStats` does not
clamp: in the environment `envC3` (CPU usage sample of 7 for the node,
all other queries failing) the stored free CPU is `6 - 7 = -1`, a
negative value violating `0 ≤ free`. -/
theorem C3_counterexample :
    (PreemptiveSched.getNodeStats "node1" Inputs.envC3).CPUFree = -1
    ∧ ¬ (0 ≤ (PreemptiveSched.getNodeStats "node1" Inputs.envC3).CPUFree) := by
  have h : (PreemptiveSched.getNodeStats "node1" Inputs.envC3).CPUFree = -1 := by
    simp +decide [PreemptiveSched.getNodeStats, PreemptiveSched.lookupSample,
      List.lookup, Inputs.envC3]
    norm_num
  exact ⟨h, by rw [h]; norm_num⟩

set_option maxHeartbeats 1000000 in
/-- Claim C3, amended: `getNodeStats` stores each free value as total
minus observed usage with no clamping; whenever the CPU query matches the
node with usage `u`, the stored state has the hard-coded total 6 and free
exactly `6 - u` — negative whenever `u > 6`, never clamped to zero. -/
theorem C3_no_clamping (name : String) (u : ℚ) :
    (PreemptiveSched.getNodeStats name (Inputs.envWithCpuUsage name u)).CPUTotal = 6
    ∧ (PreemptiveSched.getNodeStats name (Inputs.envWithCpuUsage name u)).CPUFree = 6 - u := by
  constructor <;>
    simp [PreemptiveSched.getNodeStats, PreemptiveSched.lookupSample, List.lookup,
      Inputs.envWithCpuUsage]

/-- Claim C4 (confirmed): under the preemptive scheduler's dominant-share
policy `scoreMultiResource`, a request whose six demand dimensions are
all zero scores the midpoint `maxScore / 2` (Go integer division) for
every node state and every maxScore. -/
theorem C4_zero_demand_scores_midpoint (stats : PreemptiveSched.NodeStats)
    (maxScore prio : ℤ) :
    PreemptiveSched.scoreMultiResource (Inputs.zeroReqPre prio) stats maxScore
      = maxScore.tdiv 2 := by
  simp [PreemptiveSched.scoreMultiResource, Inputs.zeroReqPre]

/-- Claim C5 (confirmed): under the extender's dominant-share policy
`ScoreMultiResource`, a request whose six demand dimensions are all
zero scores exactly `maxScore` for every node state (for the
nonnegative `maxScore` values the configuration admits). -/
theorem C5_zero_demand_scores_max (stats : SchedExtension.NodeStats)
    (maxScore prio : ℤ) (h : 0 ≤ maxScore) :
    SchedExtension.ScoreMultiResource (Inputs.zeroReqExt prio) stats maxScore = maxScore := by
  simp only [SchedExtension.ScoreMultiResource, Inputs.zeroReqExt]
  norm_num
  rw [if_neg (by exact_mod_cast not_lt.mpr h)]
  simp [goTruncQ]

/-- Claim C5 witness: at the default `maxScore = 100` and a concrete node
state, the all-zero demand scores 100. -/
theorem C5_witness :
    (0:ℤ) ≤ 100
    ∧ SchedExtension.ScoreMultiResource (Inputs.zeroReqExt 0) Inputs.statsExtW 100 = 100 :=
  ⟨by norm_num, C5_zero_demand_scores_max Inputs.statsExtW 100 0 (by norm_num)⟩

/-- Claim C6 (confirmed): for every demand, node state, alpha, and raised
free value `f`, if the preemptive scheduler's admission predicate accepts,
it still accepts after raising any single free-capacity field to `f`
(each conjunct covers one of the six fields; the dimension's total is
nonnegative, as the data model requires of node states). -/
theorem C6_admission_monotone (pod : PreemptiveSched.PodRequest)
    (stats : PreemptiveSched.NodeStats) (alpha f : ℚ) :
    (0 ≤ stats.CPUTotal → stats.CPUFree ≤ f →
      (PreemptiveSched.canScheduleMulti pod stats alpha).1 = true →
      (PreemptiveSched.canScheduleMulti pod { stats with CPUFree := f } alpha).1 = true)
  ∧ (0 ≤ stats.MemTotal → stats.MemFree ≤ f →
      (PreemptiveSched.canScheduleMulti pod stats alpha).1 = true →
      (PreemptiveSched.canScheduleMulti pod { stats with MemFree := f } alpha).1 = true)
  ∧ (0 ≤ stats.DiskReadTotal → stats.DiskReadFree ≤ f →
      (PreemptiveSched.canScheduleMulti pod stats alpha).1 = true →
      (PreemptiveSched.canScheduleMulti pod { stats with DiskReadFree := f } alpha).1 = true)
  ∧ (0 ≤ stats.DiskWriteTotal → stats.DiskWriteFree ≤ f →
      (PreemptiveSched.canScheduleMulti pod stats alpha).1 = true →
      (PreemptiveSched.canScheduleMulti pod { stats with DiskWriteFree := f } alpha).1 = true)
  ∧ (0 ≤ stats.NetUpTotal → stats.NetUpFree ≤ f →
      (PreemptiveSched.canScheduleMulti pod stats alpha).1 = true →
      (PreemptiveSched.canScheduleMulti pod { stats with NetUpFree := f } alpha).1 = true)
  ∧ (0 ≤ stats.NetDownTotal → stats.NetDownFree ≤ f →
      (PreemptiveSched.canScheduleMulti pod stats alpha).1 = true →
      (PreemptiveSched.canScheduleMulti pod { stats with NetDownFree := f } alpha).1 = true) := by
  refine ⟨?_, ?_, ?_, ?_, ?_, ?_⟩ <;> intro h0 hf hadm <;>
    refine PreemptiveSched.checkResources_true_mono alpha ?_ hadm
  · exact
      (List.Forall₂.cons (Or.inr ⟨rfl, rfl, h0, hf⟩)
        (List.Forall₂.cons (Or.inl rfl) (List.Forall₂.cons (Or.inl rfl)
          (List.Forall₂.cons (Or.inl rfl) (List.Forall₂.cons (Or.inl rfl)
            (List.Forall₂.cons (Or.inl rfl) List.Forall₂.nil))))))
  · exact
      (List.Forall₂.cons (Or.inl rfl)
        (List.Forall₂.cons (Or.inr ⟨rfl, rfl, h0, hf⟩) (List.Forall₂.cons (Or.inl rfl)
          (List.Forall₂.cons (Or.inl rfl) (List.Forall₂.cons (Or.inl rfl)
            (List.Forall₂.cons (Or.inl rfl) List.Forall₂.nil))))))
  · exact
      (List.Forall₂.cons (Or.inl rfl)
        (List.Forall₂.cons (Or.inl rfl) (List.Forall₂.cons (Or.inr ⟨rfl, rfl, h0, hf⟩)
          (List.Forall₂.cons (Or.inl rfl) (List.Forall₂.cons (Or.inl rfl)
            (List.Forall₂.cons (Or.inl rfl) List.Forall₂.nil))))))
  · exact
      (List.Forall₂.cons (Or.inl rfl)
        (List.Forall₂.cons (Or.inl rfl) (List.Forall₂.cons (Or.inl rfl)
          (List.Forall₂.cons (Or.inr ⟨rfl, rfl, h0, hf⟩) (List.Forall₂.cons (Or.inl rfl)
            (List.Forall₂.cons (Or.inl rfl) List.Forall₂.nil))))))
  · exact
      (List.Forall₂.cons (Or.inl rfl)
        (List.Forall₂.cons (Or.inl rfl) (List.Forall₂.cons (Or.inl rfl)
          (List.Forall₂.cons (Or.inl rfl) (List.Forall₂.cons (Or.inr ⟨rfl, rfl, h0, hf⟩)
            (List.Forall₂.cons (Or.inl rfl) List.Forall₂.nil))))))
  · exact
      (List.Forall₂.cons (Or.inl rfl)
        (List.Forall₂.cons (Or.inl rfl) (List.Forall₂.cons (Or.inl rfl)
          (List.Forall₂.cons (Or.inl rfl) (List.Forall₂.cons (Or.inl rfl)
            (List.Forall₂.cons (Or.inr ⟨rfl, rfl, h0, hf⟩) List.Forall₂.nil))))))

set_option maxHeartbeats 1000000 in
/-- Claim C6 witness: `statsC6` admits `podC6` under ceiling 1, and still
admits after raising its free CPU from 2 to 3. -/
theorem C6_witness :
    ((0:ℚ) ≤ Inputs.statsC6.CPUTotal ∧ Inputs.statsC6.CPUFree ≤ 3
      ∧ (PreemptiveSched.canScheduleMulti Inputs.podC6 Inputs.statsC6 1).1 = true)
    ∧ (PreemptiveSched.canScheduleMulti Inputs.podC6
        { Inputs.statsC6 with CPUFree := 3 } 1).1 = true := by
  have h0 : (0:ℚ) ≤ Inputs.statsC6.CPUTotal := by norm_num [Inputs.statsC6]
  have hf : Inputs.statsC6.CPUFree ≤ 3 := by norm_num [Inputs.statsC6]
  have hadm : (PreemptiveSched.canScheduleMulti Inputs.podC6 Inputs.statsC6 1).1 = true := by
    simp +decide [PreemptiveSched.canScheduleMulti, PreemptiveSched.checkResources,
      PreemptiveSched.resourceChecks, Inputs.podC6, Inputs.statsC6]
    norm_num
  exact ⟨⟨h0, hf, hadm⟩,
    (C6_admission_monotone Inputs.podC6 Inputs.statsC6 1 3).1 h0 hf hadm⟩

set_option maxHeartbeats 1000000 in
/-- Claim C7 (confirmed): annotation parsing maps "50M" to 50·1024²,
"2G" to 2·1024³, "100" to 100.0, and "garbage" to the supplied default,
with the K/M/G suffix case-insensitive ("50m", "2g", "3k"), for every
supplied default value. -/
theorem C7_annotation_parsing (d : ℚ) :
    MultiResource.parseResourceAnnotationVal (Inputs.podAnn "50M")
        "scheduler.extender/disk-read" d = 50 * 1024 * 1024
    ∧ MultiResource.parseResourceAnnotationVal (Inputs.podAnn "2G")
        "scheduler.extender/disk-read" d = 2 * 1024 * 1024 * 1024
    ∧ MultiResource.parseResourceAnnotationVal (Inputs.podAnn "100")
        "scheduler.extender/disk-read" d = 100
    ∧ MultiResource.parseResourceAnnotationVal (Inputs.podAnn "garbage")
        "scheduler.extender/disk-read" d = d
    ∧ MultiResource.parseResourceAnnotationVal (Inputs.podAnn "50m")
        "scheduler.extender/disk-read" d = 50 * 1024 * 1024
    ∧ MultiResource.parseResourceAnnotationVal (Inputs.podAnn "2g")
        "scheduler.extender/disk-read" d = 2 * 1024 * 1024 * 1024
    ∧ MultiResource.parseResourceAnnotationVal (Inputs.podAnn "3k")
        "scheduler.extender/disk-read" d = 3 * 1024 := by
  refine ⟨?_, ?_, ?_, ?_, ?_, ?_, ?_⟩ <;>
    simp +decide [MultiResource.parseResourceAnnotationVal, GoStrconv.parseFloatChars,
      GoStrconv.parseMantissa, GoStrconv.parseDigits, GoStrconv.parseExponent,
      List.lookup, Inputs.podAnn]

/-- Claim C8 (confirmed): `NormalizeScore` with `maxScore = 100` maps
`[20, 60, 100]` to `[0, 50, 100]` and leaves the all-equal `[50, 50, 50]`
unchanged. -/
theorem C8_normalization :
    MultiResource.NormalizeScore 100 [20, 60, 100] = [0, 50, 100]
    ∧ MultiResource.NormalizeScore 100 [50, 50, 50] = [50, 50, 50] := by
  decide

/-- Claim C9 (confirmed): the extender's `CanScheduleMulti` is
independent of its `alpha` parameter — the utilization-ceiling check is
never applied on this front end, for every pod request and node state. -/
theorem C9_alpha_unused (podReq : SchedExtension.PodRequest)
    (stats : SchedExtension.NodeStats) (alpha1 alpha2 : ℚ) :
    SchedExtension.CanScheduleMulti podReq stats alpha1
      = SchedExtension.CanScheduleMulti podReq stats alpha2 := rfl

/-- Claim C10 (confirmed): the plugin's `extractPodRequirements` assigns
priority 1 to every pod, and its whole result is unchanged by the pod's
declared priority field — that field is never read. -/
theorem C10_priority_constant_one (pod : Pod) :
    (MultiResource.extractPodRequirements pod).Priority = 1
    ∧ ∀ p : Option ℤ,
        MultiResource.extractPodRequirements { pod with priority := p }
          = MultiResource.extractPodRequirements pod :=
  ⟨rfl, fun _ => rfl⟩
